import Mathlib

set_option autoImplicit false

/-!
Verification development for the adaptive frame-sampling decision engine
(api/adaptive_sampling.py).  The Python class AdaptiveFrameSampler is embedded
as a pure state-transition function: machine floats become rationals, wall
clock readings become explicit call inputs, and library calls that can raise
on malformed input (OpenCV color conversion / absolute difference) are
modelled with Option, where none stands for a propagated exception.
-/

/-- Reasons for frame sampling decisions (enum SamplingReason). -/
inductive SamplingReason where
  | motionSpike
  | idSwitch
  | crowdChange
  | lockOnActive
  | userSeek
  | stableScene
  | initialization
  | defaultReason
  deriving DecidableEq

/-- Metrics for adaptive sampling performance (dataclass SamplingMetrics).
The field processingTimeMs records the wall-clock duration measured with a
performance counter; the measured value enters as a call input. -/
structure SamplingMetrics where
  framesProcessed : Nat
  framesSkipped : Nat
  totalFrames : Nat
  currentInterval : Nat
  avgMotionScore : Rat
  detectionCount : Nat
  idSwitches : Nat
  lockEvents : Nat
  processingTimeMs : Rat
  lastReason : SamplingReason
  deriving DecidableEq

/-- Fresh metrics, mirroring the dataclass field defaults. -/
def initMetrics : SamplingMetrics :=
  { framesProcessed := 0
    framesSkipped := 0
    totalFrames := 0
    currentInterval := 2
    avgMotionScore := 0
    detectionCount := 0
    idSwitches := 0
    lockEvents := 0
    processingTimeMs := 0
    lastReason := SamplingReason.defaultReason }

/-- Percentage of frames actually processed (property processing_ratio). -/
def processingRatioPct (m : SamplingMetrics) : Rat :=
  if m.totalFrames = 0 then 0
  else ((m.framesProcessed : Rat) / (m.totalFrames : Rat)) * 100

/-- Efficiency metric: detections per processed frame (property efficiency_score). -/
def efficiencyScorePct (m : SamplingMetrics) : Rat :=
  if m.framesProcessed = 0 then 0
  else (m.detectionCount : Rat) / (m.framesProcessed : Rat)

/-- Configuration for adaptive frame sampling (dataclass AdaptiveSamplingConfig). -/
structure AdaptiveSamplingConfig where
  minInterval : Nat
  maxInterval : Nat
  defaultInterval : Nat
  motionThresholdHigh : Rat
  motionThresholdLow : Rat
  motionHistorySize : Nat
  detectionChangeThreshold : Rat
  idSwitchPenalty : Nat
  lockOnBoostFrames : Nat
  seekEventWindow : Rat
  stabilityWindow : Nat
  enableMotionDetection : Bool
  enableIdTracking : Bool
  enableCrowdMonitoring : Bool

/-- The dataclass field defaults of AdaptiveSamplingConfig. -/
def defaultConfig : AdaptiveSamplingConfig :=
  { minInterval := 1
    maxInterval := 8
    defaultInterval := 2
    motionThresholdHigh := 15 / 100
    motionThresholdLow := 5 / 100
    motionHistorySize := 10
    detectionChangeThreshold := 3 / 10
    idSwitchPenalty := 3
    lockOnBoostFrames := 15
    seekEventWindow := 2
    stabilityWindow := 30
    enableMotionDetection := true
    enableIdTracking := true
    enableCrowdMonitoring := true }

/-- One detection dictionary as read by the sampler: only the optional id
entry is ever consulted (det.get with key id, guarded by key membership);
all other entries of the dictionary are never read. -/
structure Det where
  id : Option Int
  deriving DecidableEq

/-- Identity set of a detection list: values of the id key of those
detections that carry one (the set comprehension over detections). -/
def detIds (l : List Det) : Finset Int :=
  (l.filterMap (fun d => d.id)).toFinset

/-- A BGR color frame: a pixel buffer with the given dimensions; pix returns
the (blue, green, red) channel values at a (row, column) coordinate. -/
structure Frame where
  rows : Nat
  cols : Nat
  pix : Nat → Nat → Nat × Nat × Nat

/-- A single-channel grayscale frame. -/
structure GrayFrame where
  rows : Nat
  cols : Nat
  pix : Nat → Nat → Nat

/-- Fixed-point BGR to luminance conversion used by OpenCV cvtColor with
COLOR_BGR2GRAY (coefficients 1868, 9617, 4899 with a 14-bit shift). -/
def grayValue (bgr : Nat × Nat × Nat) : Nat :=
  (bgr.1 * 1868 + bgr.2.1 * 9617 + bgr.2.2 * 4899 + 8192) / 16384

/-- Grayscale conversion. Models cv2.cvtColor(frame, COLOR_BGR2GRAY), which
asserts that its input is non-empty: a zero-area frame raises, modelled as
none. -/
def cvtGray (f : Frame) : Option GrayFrame :=
  if f.rows = 0 ∨ f.cols = 0 then none
  else some { rows := f.rows, cols := f.cols, pix := fun i j => grayValue (f.pix i j) }

/-- Clamp a signed coordinate into the index range of an axis of the given
size (border replication for the smoothing window). -/
def clampIdx (n : Int) (size : Nat) : Nat :=
  (max 0 (min n ((size : Int) - 1))).toNat

/-- One output pixel of the 21 by 21 smoothing window centered at (i, j),
with borders replicated. -/
def blurPix (g : GrayFrame) (i j : Nat) : Nat :=
  (((List.range 21).map (fun di =>
    ((List.range 21).map (fun dj =>
      g.pix (clampIdx ((i : Int) + (di : Int) - 10) g.rows)
            (clampIdx ((j : Int) + (dj : Int) - 10) g.cols))).sum)).sum) / 441

/-- Noise-suppressing smoothing pass. Models cv2.GaussianBlur with a 21 by 21
kernel at the interface level of the spec: a deterministic, dimension
preserving 21 by 21 smoothing window; the exact Gaussian weights are
immaterial to every property proved here (only determinism and dimension
preservation are used). -/
def gaussianBlur (g : GrayFrame) : GrayFrame :=
  { rows := g.rows, cols := g.cols, pix := fun i j => blurPix g i j }

/-- Number of pixels whose absolute difference between the stored previous
smoothed frame and the current one exceeds the fixed intensity delta 25
(cv2.absdiff followed by cv2.threshold at 25 and counting nonzero pixels). -/
def countChanged (pg g : GrayFrame) : Nat :=
  (((Finset.range g.rows) ×ˢ (Finset.range g.cols)).filter
    (fun p => 25 < Int.natAbs ((pg.pix p.1 p.2 : Int) - (g.pix p.1 p.2 : Int)))).card

/-- Motion score via frame difference (method _calculate_motion_score).
Returns the score together with the smoothed grayscale frame that the source
stores as the new previous frame.  none models a raised exception: the
grayscale conversion asserts a non-empty frame, and the absolute difference
asserts matching shapes. -/
def calculateMotionScore (prev : Option GrayFrame) (f : Frame) :
    Option (Rat × GrayFrame) :=
  match cvtGray f with
  | none => none
  | some gray0 =>
    let gray := gaussianBlur gray0
    match prev with
    | none => some (0, gray)
    | some pg =>
      if pg.rows = gray.rows ∧ pg.cols = gray.cols then
        some (((countChanged pg gray : Rat)) / (((gray.rows * gray.cols : Nat)) : Rat), gray)
      else none

/-- One telemetry event (the dictionary built by _record_telemetry). -/
structure TelemetryEvent where
  timestamp : Rat
  frameIdx : Nat
  reason : SamplingReason
  interval : Nat
  processed : Bool
  motionScore : Rat
  detectionCount : Nat
  processingRatioPct : Rat
  deriving DecidableEq

/-- Append one event to the telemetry buffer, then evict the oldest entry when
the buffer size exceeds the capacity (the append and conditional pop at the
front in _record_telemetry). -/
def appendBounded (cap : Nat) (buf : List TelemetryEvent) (e : TelemetryEvent) :
    List TelemetryEvent :=
  let evs := buf ++ [e]
  if cap < evs.length then evs.drop 1 else evs

/-- The full mutable state of one AdaptiveFrameSampler instance. -/
structure SamplerState where
  metrics : SamplingMetrics
  currentInterval : Nat
  frameCount : Nat
  lastProcessedFrame : Int
  prevFrameGray : Option GrayFrame
  motionHistory : List Rat
  prevDetectionCount : Nat
  prevTrackIds : Finset Int
  stabilityCounter : Nat
  lockOnBoostRemaining : Nat
  idSwitchBoostRemaining : Nat
  lastSeekTime : Rat
  telemetryEvents : List TelemetryEvent
  maxTelemetryEvents : Nat

/-- State of a freshly constructed instance (the constructor body). -/
def initState (cfg : AdaptiveSamplingConfig) : SamplerState :=
  { metrics := initMetrics
    currentInterval := cfg.defaultInterval
    frameCount := 0
    lastProcessedFrame := -1
    prevFrameGray := none
    motionHistory := []
    prevDetectionCount := 0
    prevTrackIds := ∅
    stabilityCounter := 0
    lockOnBoostRemaining := 0
    idSwitchBoostRemaining := 0
    lastSeekTime := 0
    telemetryEvents := []
    maxTelemetryEvents := 1000 }

/-- Reset sampler state for new video processing (method reset).  Every field
listed in the method body is restored; the telemetry capacity is not touched
by the method and therefore carried over. -/
def resetState (cfg : AdaptiveSamplingConfig) (s : SamplerState) : SamplerState :=
  { metrics := initMetrics
    currentInterval := cfg.defaultInterval
    frameCount := 0
    lastProcessedFrame := -1
    prevFrameGray := none
    motionHistory := []
    prevDetectionCount := 0
    prevTrackIds := ∅
    stabilityCounter := 0
    lockOnBoostRemaining := 0
    idSwitchBoostRemaining := 0
    lastSeekTime := 0
    telemetryEvents := []
    maxTelemetryEvents := s.maxTelemetryEvents }

/-- Record a telemetry event (method _record_telemetry): build the event from
the current metrics, append it, and keep the buffer bounded. -/
def recordTelemetry (s : SamplerState) (now : Rat) (frameIdx : Nat)
    (reason : SamplingReason) (interval : Nat) (processed : Bool) : SamplerState :=
  let e : TelemetryEvent :=
    { timestamp := now
      frameIdx := frameIdx
      reason := reason
      interval := interval
      processed := processed
      motionScore := s.metrics.avgMotionScore
      detectionCount := s.metrics.detectionCount
      processingRatioPct := processingRatioPct s.metrics }
  { s with telemetryEvents := appendBounded s.maxTelemetryEvents s.telemetryEvents e }

/-- Motion detection block of _calculate_adaptive_interval: score the frame,
push onto the bounded history, compare the moving average against both motion
thresholds.  none models an exception escaping from the motion scorer. -/
def motionStage (cfg : AdaptiveSamplingConfig) (f : Frame) (interval : Nat)
    (reason : SamplingReason) (s : SamplerState) :
    Option (Nat × SamplingReason × SamplerState) :=
  if cfg.enableMotionDetection then
    match calculateMotionScore s.prevFrameGray f with
    | none => none
    | some sg =>
      let hist0 := s.motionHistory ++ [sg.1]
      let hist := if cfg.motionHistorySize < hist0.length then hist0.drop 1 else hist0
      let avg := hist.sum / (hist.length : Rat)
      let s1 : SamplerState :=
        { s with prevFrameGray := some sg.2
                 motionHistory := hist
                 metrics := { s.metrics with avgMotionScore := avg } }
      if cfg.motionThresholdHigh < avg then
        some (cfg.minInterval, SamplingReason.motionSpike, { s1 with stabilityCounter := 0 })
      else if avg < cfg.motionThresholdLow then
        some (interval, reason, { s1 with stabilityCounter := s1.stabilityCounter + 1 })
      else
        some (interval, reason, { s1 with stabilityCounter := 0 })
  else some (interval, reason, s)

/-- Crowd monitoring block of _calculate_adaptive_interval: relative change of
the detection count against the stored previous count, skipped entirely when
the previous count is zero; the previous count is always updated afterward. -/
def crowdStage (cfg : AdaptiveSamplingConfig) (dets : Option (List Det))
    (interval : Nat) (reason : SamplingReason) (s : SamplerState) :
    Nat × SamplingReason × SamplerState :=
  match dets with
  | none => (interval, reason, s)
  | some l =>
    if cfg.enableCrowdMonitoring then
      let currentCount := l.length
      if 0 < s.prevDetectionCount then
        let countChange : Rat :=
          ((Int.natAbs ((currentCount : Int) - (s.prevDetectionCount : Int)) : Nat) : Rat) /
            ((s.prevDetectionCount : Nat) : Rat)
        if cfg.detectionChangeThreshold < countChange then
          (min interval (cfg.minInterval + 1), SamplingReason.crowdChange,
            { s with stabilityCounter := 0, prevDetectionCount := currentCount })
        else (interval, reason, { s with prevDetectionCount := currentCount })
      else (interval, reason, { s with prevDetectionCount := currentCount })
    else (interval, reason, s)

/-- Identity tracking block of _calculate_adaptive_interval: compare the set of
identities present against the stored previous set; on churn arm the cooldown
counter and force the minimum interval.  The stored set is always replaced
afterward. -/
def idStage (cfg : AdaptiveSamplingConfig) (dets : Option (List Det))
    (interval : Nat) (reason : SamplingReason) (s : SamplerState) :
    Nat × SamplingReason × SamplerState :=
  match dets with
  | none => (interval, reason, s)
  | some l =>
    if cfg.enableIdTracking then
      let currentIds := detIds l
      if s.prevTrackIds ≠ ∅ ∧ currentIds ≠ s.prevTrackIds then
        let newIds := currentIds \ s.prevTrackIds
        let lostIds := s.prevTrackIds \ currentIds
        if newIds ≠ ∅ ∨ lostIds ≠ ∅ then
          (cfg.minInterval, SamplingReason.idSwitch,
            { s with idSwitchBoostRemaining := cfg.idSwitchPenalty
                     metrics := { s.metrics with idSwitches := s.metrics.idSwitches + 1 }
                     stabilityCounter := 0
                     prevTrackIds := currentIds })
        else (interval, reason, { s with prevTrackIds := currentIds })
      else (interval, reason, { s with prevTrackIds := currentIds })
    else (interval, reason, s)

/-- Stability relaxation block of _calculate_adaptive_interval: only when no
earlier stage replaced the default reason and the stability counter reached
the window, relax the interval by one up to the maximum. -/
def stabilityStage (cfg : AdaptiveSamplingConfig) (interval : Nat)
    (reason : SamplingReason) (s : SamplerState) :
    Nat × SamplingReason × SamplerState :=
  if cfg.stabilityWindow ≤ s.stabilityCounter then
    if reason = SamplingReason.defaultReason then
      (min cfg.maxInterval (interval + 1), SamplingReason.stableScene, s)
    else (interval, reason, s)
  else (interval, reason, s)

/-- Calculate adaptive sampling interval based on scene analysis (method
_calculate_adaptive_interval): the ordered pipeline of the four blocks
followed by the final clamp into the configured interval bounds. -/
def calculateAdaptiveInterval (cfg : AdaptiveSamplingConfig) (s : SamplerState)
    (f : Frame) (dets : Option (List Det)) :
    Option (Nat × SamplingReason × SamplerState) :=
  match motionStage cfg f cfg.defaultInterval SamplingReason.defaultReason s with
  | none => none
  | some t1 =>
    let t2 := crowdStage cfg dets t1.1 t1.2.1 t1.2.2
    let t3 := idStage cfg dets t2.1 t2.2.1 t2.2.2
    let t4 := stabilityStage cfg t3.1 t3.2.1 t3.2.2
    some (max cfg.minInterval (min cfg.maxInterval t4.1), t4.2.1, t4.2.2)

/-- The inputs of one call to should_process_frame.  The field now carries the
wall clock reading taken during the call; perfMs carries the measured
processing duration in milliseconds. -/
structure FrameInput where
  frameIdx : Nat
  frame : Frame
  detections : Option (List Det)
  lockOnActive : Bool
  seekEvent : Bool
  now : Rat
  perfMs : Rat

/-- The decision returned by one call.  The source returns a string encoding
the reason and, on every path except the immediate seek return, the interval;
here it is kept structurally, with interval none on the seek return whose
string carries no interval. -/
structure SamplingDecision where
  shouldProcess : Bool
  reason : SamplingReason
  interval : Option Nat
  deriving DecidableEq

/-- Entry bookkeeping of should_process_frame: record the frame count and the
monotone total-frames watermark. -/
def enterFrame (s : SamplerState) (inp : FrameInput) : SamplerState :=
  { s with frameCount := inp.frameIdx
           metrics := { s.metrics with
             totalFrames := max s.metrics.totalFrames (inp.frameIdx + 1) } }

/-- The early return of should_process_frame on a seek event: store the seek
time, record telemetry with interval 1, set the last reason, and return a
positive decision without consulting the elapsed-interval gate. -/
def seekReturn (s : SamplerState) (inp : FrameInput) :
    SamplingDecision × SamplerState :=
  let s1 := { s with lastSeekTime := inp.now }
  let s2 := recordTelemetry s1 inp.now inp.frameIdx SamplingReason.userSeek 1 true
  let s3 := { s2 with metrics := { s2.metrics with lastReason := SamplingReason.userSeek } }
  ({ shouldProcess := true, reason := SamplingReason.userSeek, interval := none }, s3)

/-- The priority-ordered branch selection of should_process_frame: seek boost
window, then lock-on, then identity-switch cooldown, then the normal adaptive
calculation.  Yields the interval, the reason and the state after the branch
side effects. -/
def selectBranch (cfg : AdaptiveSamplingConfig) (s : SamplerState)
    (inp : FrameInput) : Option (Nat × SamplingReason × SamplerState) :=
  if inp.now - s.lastSeekTime < cfg.seekEventWindow then
    some (1, SamplingReason.userSeek, s)
  else if inp.lockOnActive then
    some (1, SamplingReason.lockOnActive,
      { s with lockOnBoostRemaining := cfg.lockOnBoostFrames
               metrics := { s.metrics with lockEvents := s.metrics.lockEvents + 1 } })
  else if 0 < s.idSwitchBoostRemaining then
    some (1, SamplingReason.idSwitch,
      { s with idSwitchBoostRemaining := s.idSwitchBoostRemaining - 1 })
  else calculateAdaptiveInterval cfg s inp.frame inp.detections

/-- Tail of should_process_frame after a branch produced interval and reason:
publish the current interval and last reason, apply the elapsed-interval gate,
update the processed or skipped accounting, record the processing time and the
telemetry event. -/
def applyDecision (inp : FrameInput) (interval : Nat) (reason : SamplingReason)
    (s1 : SamplerState) : SamplingDecision × SamplerState :=
  let s2 := { s1 with currentInterval := interval
                      metrics := { s1.metrics with
                        currentInterval := interval
                        lastReason := reason } }
  let processed : Bool := decide ((interval : Int) ≤ (inp.frameIdx : Int) - s2.lastProcessedFrame)
  let s3 :=
    if processed then
      { s2 with lastProcessedFrame := (inp.frameIdx : Int)
                metrics := { s2.metrics with
                  framesProcessed := s2.metrics.framesProcessed + 1
                  detectionCount := s2.metrics.detectionCount +
                    (match inp.detections with | some l => l.length | none => 0) } }
    else { s2 with metrics := { s2.metrics with framesSkipped := s2.metrics.framesSkipped + 1 } }
  let s4 := { s3 with metrics := { s3.metrics with processingTimeMs := inp.perfMs } }
  let s5 := recordTelemetry s4 inp.now inp.frameIdx reason interval processed
  ({ shouldProcess := processed, reason := reason, interval := some interval }, s5)

/-- Determine if a frame should be processed (method should_process_frame).
none models an exception escaping the call (only possible from the motion
scorer inside the normal adaptive calculation). -/
def shouldProcessFrame (cfg : AdaptiveSamplingConfig) (s0 : SamplerState)
    (inp : FrameInput) : Option (SamplingDecision × SamplerState) :=
  let s := enterFrame s0 inp
  if inp.seekEvent then some (seekReturn s inp)
  else
    match selectBranch cfg s inp with
    | none => none
    | some t => some (applyDecision inp t.1 t.2.1 t.2.2)

/-- Drive one session: issue the calls in order, threading the state; none as
soon as one call raises. -/
def runCallsM (cfg : AdaptiveSamplingConfig) : SamplerState → List FrameInput →
    Option SamplerState
  | s, [] => some s
  | s, inp :: rest =>
    match shouldProcessFrame cfg s inp with
    | none => none
    | some ds => runCallsM cfg ds.2 rest

/-- Drive one session and collect the decisions of the calls in order. -/
def runDecisions (cfg : AdaptiveSamplingConfig) : SamplerState → List FrameInput →
    Option (List SamplingDecision)
  | _, [] => some []
  | s, inp :: rest =>
    match shouldProcessFrame cfg s inp with
    | none => none
    | some ds => (runDecisions cfg ds.2 rest).map (fun l => ds.1 :: l)

/-- A one by one all-black still frame. -/
def stillFrame : Frame :=
  { rows := 1, cols := 1, pix := fun _ _ => (0, 0, 0) }

/-- A zero-area frame. -/
def emptyFrame : Frame :=
  { rows := 0, cols := 0, pix := fun _ _ => (0, 0, 0) }

/-- Plain call input on the still frame at the given index: no detections, no
flags, wall clock far past the initial seek timestamp. -/
def stillInput (k : Nat) : FrameInput :=
  { frameIdx := k
    frame := stillFrame
    detections := none
    lockOnActive := false
    seekEvent := false
    now := 1000
    perfMs := 0 }

/-- Call input for a seek event at the given index. -/
def seekInput (k : Nat) : FrameInput :=
  { frameIdx := k
    frame := stillFrame
    detections := none
    lockOnActive := true
    seekEvent := true
    now := 1000
    perfMs := 0 }

/-- Call input on a zero-area frame, no flags. -/
def emptyFrameInput : FrameInput :=
  { frameIdx := 0
    frame := emptyFrame
    detections := none
    lockOnActive := false
    seekEvent := false
    now := 1000
    perfMs := 0 }

/-- A detection dictionary carrying no id key. -/
def noIdDet : Det := { id := none }

/-- Five detections without identities. -/
def dets5 : List Det := List.replicate 5 noIdDet

/-- A fresh state whose stored previous detection count is 2. -/
def statePrev2 : SamplerState :=
  { initState defaultConfig with prevDetectionCount := 2 }

/-- Sample telemetry event used in concrete witnesses. -/
def sampleEvent (k : Nat) : TelemetryEvent :=
  { timestamp := k
    frameIdx := k
    reason := SamplingReason.defaultReason
    interval := 2
    processed := true
    motionScore := 0
    detectionCount := 0
    processingRatioPct := 0 }

/-- Call input with lock-on active at the given index. -/
def lockInput (k : Nat) : FrameInput :=
  { frameIdx := k
    frame := stillFrame
    detections := none
    lockOnActive := true
    seekEvent := false
    now := 1000
    perfMs := 0 }

lemma spf_seek (cfg : AdaptiveSamplingConfig) (s0 : SamplerState) (inp : FrameInput)
    (h : inp.seekEvent = true) :
    shouldProcessFrame cfg s0 inp = some (seekReturn (enterFrame s0 inp) inp) := by
  simp [shouldProcessFrame, h]

lemma spf_not_seek (cfg : AdaptiveSamplingConfig) (s0 : SamplerState) (inp : FrameInput)
    (h : inp.seekEvent = false) :
    shouldProcessFrame cfg s0 inp =
      (selectBranch cfg (enterFrame s0 inp) inp).map
        (fun t => applyDecision inp t.1 t.2.1 t.2.2) := by
  simp only [shouldProcessFrame, h, Bool.false_eq_true, if_false]
  cases selectBranch cfg (enterFrame s0 inp) inp <;> rfl

lemma motionStage_preserves (cfg : AdaptiveSamplingConfig) (f : Frame) (i : Nat)
    (r : SamplingReason) (s : SamplerState) (t : Nat × SamplingReason × SamplerState)
    (h : motionStage cfg f i r s = some t) :
    t.2.2.lastProcessedFrame = s.lastProcessedFrame ∧
    t.2.2.metrics.framesProcessed = s.metrics.framesProcessed ∧
    t.2.2.metrics.framesSkipped = s.metrics.framesSkipped ∧
    t.2.2.metrics.detectionCount = s.metrics.detectionCount ∧
    t.2.2.telemetryEvents = s.telemetryEvents ∧
    t.2.2.maxTelemetryEvents = s.maxTelemetryEvents ∧
    t.2.2.prevDetectionCount = s.prevDetectionCount ∧
    t.2.2.prevTrackIds = s.prevTrackIds := by
  unfold motionStage at h
  split at h
  · cases hm : calculateMotionScore s.prevFrameGray f with
    | none => rw [hm] at h; exact absurd h (by simp)
    | some sg =>
      rw [hm] at h
      simp only [] at h
      repeat' split at h
      all_goals (injection h with h; subst h; simp)
  · injection h with h; subst h; exact ⟨rfl, rfl, rfl, rfl, rfl, rfl, rfl, rfl⟩

lemma motionStage_reason (cfg : AdaptiveSamplingConfig) (f : Frame) (i : Nat)
    (r : SamplingReason) (s : SamplerState) (t : Nat × SamplingReason × SamplerState)
    (h : motionStage cfg f i r s = some t) :
    t.2.1 = r ∨ t.2.1 = SamplingReason.motionSpike := by
  unfold motionStage at h
  split at h
  · cases hm : calculateMotionScore s.prevFrameGray f with
    | none => rw [hm] at h; exact absurd h (by simp)
    | some sg =>
      rw [hm] at h
      simp only [] at h
      repeat' split at h
      all_goals (injection h with h; subst h; simp)
  · injection h with h; subst h; left; rfl

lemma crowdStage_preserves (cfg : AdaptiveSamplingConfig) (dets : Option (List Det))
    (i : Nat) (r : SamplingReason) (s : SamplerState) :
    (crowdStage cfg dets i r s).2.2.lastProcessedFrame = s.lastProcessedFrame ∧
    (crowdStage cfg dets i r s).2.2.metrics.framesProcessed = s.metrics.framesProcessed ∧
    (crowdStage cfg dets i r s).2.2.metrics.framesSkipped = s.metrics.framesSkipped ∧
    (crowdStage cfg dets i r s).2.2.metrics.detectionCount = s.metrics.detectionCount ∧
    (crowdStage cfg dets i r s).2.2.telemetryEvents = s.telemetryEvents ∧
    (crowdStage cfg dets i r s).2.2.maxTelemetryEvents = s.maxTelemetryEvents ∧
    (crowdStage cfg dets i r s).2.2.prevTrackIds = s.prevTrackIds := by
  unfold crowdStage
  cases dets <;> simp only []
  · simp
  · repeat' split
    all_goals simp

lemma crowdStage_reason (cfg : AdaptiveSamplingConfig) (dets : Option (List Det))
    (i : Nat) (r : SamplingReason) (s : SamplerState) :
    (crowdStage cfg dets i r s).2.1 = r ∨
    (crowdStage cfg dets i r s).2.1 = SamplingReason.crowdChange := by
  unfold crowdStage
  cases dets <;> simp only []
  · simp
  · repeat' split
    all_goals simp

lemma idStage_preserves (cfg : AdaptiveSamplingConfig) (dets : Option (List Det))
    (i : Nat) (r : SamplingReason) (s : SamplerState) :
    (idStage cfg dets i r s).2.2.lastProcessedFrame = s.lastProcessedFrame ∧
    (idStage cfg dets i r s).2.2.metrics.framesProcessed = s.metrics.framesProcessed ∧
    (idStage cfg dets i r s).2.2.metrics.framesSkipped = s.metrics.framesSkipped ∧
    (idStage cfg dets i r s).2.2.metrics.detectionCount = s.metrics.detectionCount ∧
    (idStage cfg dets i r s).2.2.telemetryEvents = s.telemetryEvents ∧
    (idStage cfg dets i r s).2.2.maxTelemetryEvents = s.maxTelemetryEvents ∧
    (idStage cfg dets i r s).2.2.prevDetectionCount = s.prevDetectionCount := by
  unfold idStage
  cases dets <;> simp only []
  · simp
  · repeat' split
    all_goals simp

lemma idStage_reason (cfg : AdaptiveSamplingConfig) (dets : Option (List Det))
    (i : Nat) (r : SamplingReason) (s : SamplerState) :
    (idStage cfg dets i r s).2.1 = r ∨
    (idStage cfg dets i r s).2.1 = SamplingReason.idSwitch := by
  unfold idStage
  cases dets <;> simp only []
  · simp
  · repeat' split
    all_goals simp

lemma stabilityStage_state (cfg : AdaptiveSamplingConfig) (i : Nat)
    (r : SamplingReason) (s : SamplerState) :
    (stabilityStage cfg i r s).2.2 = s := by
  unfold stabilityStage
  repeat' split
  all_goals rfl

lemma stabilityStage_reason (cfg : AdaptiveSamplingConfig) (i : Nat)
    (r : SamplingReason) (s : SamplerState) :
    (stabilityStage cfg i r s).2.1 = r ∨
    (stabilityStage cfg i r s).2.1 = SamplingReason.stableScene := by
  unfold stabilityStage
  repeat' split
  all_goals simp

lemma calcAI_preserves (cfg : AdaptiveSamplingConfig) (s : SamplerState) (f : Frame)
    (dets : Option (List Det)) (t : Nat × SamplingReason × SamplerState)
    (h : calculateAdaptiveInterval cfg s f dets = some t) :
    t.2.2.lastProcessedFrame = s.lastProcessedFrame ∧
    t.2.2.metrics.framesProcessed = s.metrics.framesProcessed ∧
    t.2.2.metrics.framesSkipped = s.metrics.framesSkipped ∧
    t.2.2.metrics.detectionCount = s.metrics.detectionCount ∧
    t.2.2.telemetryEvents = s.telemetryEvents ∧
    t.2.2.maxTelemetryEvents = s.maxTelemetryEvents := by
  unfold calculateAdaptiveInterval at h
  cases hm : motionStage cfg f cfg.defaultInterval SamplingReason.defaultReason s with
  | none => rw [hm] at h; exact absurd h (by simp)
  | some t1 =>
    rw [hm] at h
    simp only [] at h
    injection h with h
    subst h
    have h1 := motionStage_preserves _ _ _ _ _ _ hm
    have h2 := crowdStage_preserves cfg dets t1.1 t1.2.1 t1.2.2
    have h3 := idStage_preserves cfg dets (crowdStage cfg dets t1.1 t1.2.1 t1.2.2).1
      (crowdStage cfg dets t1.1 t1.2.1 t1.2.2).2.1 (crowdStage cfg dets t1.1 t1.2.1 t1.2.2).2.2
    have h4 := stabilityStage_state cfg
      (idStage cfg dets (crowdStage cfg dets t1.1 t1.2.1 t1.2.2).1
        (crowdStage cfg dets t1.1 t1.2.1 t1.2.2).2.1 (crowdStage cfg dets t1.1 t1.2.1 t1.2.2).2.2).1
      (idStage cfg dets (crowdStage cfg dets t1.1 t1.2.1 t1.2.2).1
        (crowdStage cfg dets t1.1 t1.2.1 t1.2.2).2.1 (crowdStage cfg dets t1.1 t1.2.1 t1.2.2).2.2).2.1
      (idStage cfg dets (crowdStage cfg dets t1.1 t1.2.1 t1.2.2).1
        (crowdStage cfg dets t1.1 t1.2.1 t1.2.2).2.1 (crowdStage cfg dets t1.1 t1.2.1 t1.2.2).2.2).2.2
    obtain ⟨a1, b1, c1, d1, e1, f1, g1, i1⟩ := h1
    obtain ⟨a2, b2, c2, d2, e2, f2, g2⟩ := h2
    obtain ⟨a3, b3, c3, d3, e3, f3, g3⟩ := h3
    simp only [h4]
    exact ⟨a3.trans (a2.trans a1), b3.trans (b2.trans b1), c3.trans (c2.trans c1),
           d3.trans (d2.trans d1), e3.trans (e2.trans e1), f3.trans (f2.trans f1)⟩

lemma calcAI_reason (cfg : AdaptiveSamplingConfig) (s : SamplerState) (f : Frame)
    (dets : Option (List Det)) (t : Nat × SamplingReason × SamplerState)
    (h : calculateAdaptiveInterval cfg s f dets = some t) :
    t.2.1 = SamplingReason.defaultReason ∨ t.2.1 = SamplingReason.motionSpike ∨
    t.2.1 = SamplingReason.crowdChange ∨ t.2.1 = SamplingReason.idSwitch ∨
    t.2.1 = SamplingReason.stableScene := by
  unfold calculateAdaptiveInterval at h
  cases hm : motionStage cfg f cfg.defaultInterval SamplingReason.defaultReason s with
  | none => rw [hm] at h; exact absurd h (by simp)
  | some t1 =>
    rw [hm] at h
    simp only [] at h
    injection h with h
    subst h
    have h1 := motionStage_reason _ _ _ _ _ _ hm
    have h2 := crowdStage_reason cfg dets t1.1 t1.2.1 t1.2.2
    have h3 := idStage_reason cfg dets (crowdStage cfg dets t1.1 t1.2.1 t1.2.2).1
      (crowdStage cfg dets t1.1 t1.2.1 t1.2.2).2.1 (crowdStage cfg dets t1.1 t1.2.1 t1.2.2).2.2
    have h4 := stabilityStage_reason cfg
      (idStage cfg dets (crowdStage cfg dets t1.1 t1.2.1 t1.2.2).1
        (crowdStage cfg dets t1.1 t1.2.1 t1.2.2).2.1 (crowdStage cfg dets t1.1 t1.2.1 t1.2.2).2.2).1
      (idStage cfg dets (crowdStage cfg dets t1.1 t1.2.1 t1.2.2).1
        (crowdStage cfg dets t1.1 t1.2.1 t1.2.2).2.1 (crowdStage cfg dets t1.1 t1.2.1 t1.2.2).2.2).2.1
      (idStage cfg dets (crowdStage cfg dets t1.1 t1.2.1 t1.2.2).1
        (crowdStage cfg dets t1.1 t1.2.1 t1.2.2).2.1 (crowdStage cfg dets t1.1 t1.2.1 t1.2.2).2.2).2.2
    rcases h4 with h4 | h4 <;> rw [h4]
    · rcases h3 with h3 | h3 <;> rw [h3]
      · rcases h2 with h2 | h2 <;> rw [h2]
        · rcases h1 with h1 | h1 <;> rw [h1] <;> simp
        · simp
      · simp
    · simp

lemma selectBranch_preserves (cfg : AdaptiveSamplingConfig) (s : SamplerState)
    (inp : FrameInput) (t : Nat × SamplingReason × SamplerState)
    (h : selectBranch cfg s inp = some t) :
    t.2.2.lastProcessedFrame = s.lastProcessedFrame ∧
    t.2.2.metrics.framesProcessed = s.metrics.framesProcessed ∧
    t.2.2.metrics.framesSkipped = s.metrics.framesSkipped ∧
    t.2.2.metrics.detectionCount = s.metrics.detectionCount ∧
    t.2.2.telemetryEvents = s.telemetryEvents ∧
    t.2.2.maxTelemetryEvents = s.maxTelemetryEvents := by
  unfold selectBranch at h
  repeat' split at h
  · injection h with h; subst h; simp
  · injection h with h; subst h; simp
  · injection h with h; subst h; simp
  · exact calcAI_preserves _ _ _ _ _ h

lemma selectBranch_reason (cfg : AdaptiveSamplingConfig) (s : SamplerState)
    (inp : FrameInput) (t : Nat × SamplingReason × SamplerState)
    (h : selectBranch cfg s inp = some t) :
    t.2.1 ≠ SamplingReason.initialization := by
  unfold selectBranch at h
  repeat' split at h
  · injection h with h; subst h; simp
  · injection h with h; subst h; simp
  · injection h with h; subst h; simp
  · rcases calcAI_reason _ _ _ _ _ h with q | q | q | q | q <;> rw [q] <;> simp

lemma appendBounded_length_le (cap : Nat) (buf : List TelemetryEvent)
    (e : TelemetryEvent) (h : buf.length ≤ cap) :
    (appendBounded cap buf e).length ≤ cap := by
  simp only [appendBounded]
  split <;> simp_all

lemma applyDecision_fst (inp : FrameInput) (i : Nat) (r : SamplingReason)
    (s1 : SamplerState) :
    (applyDecision inp i r s1).1 =
      { shouldProcess := decide ((i : Int) ≤ (inp.frameIdx : Int) - s1.lastProcessedFrame),
        reason := r, interval := some i } := rfl

lemma applyDecision_counts (inp : FrameInput) (i : Nat) (r : SamplingReason)
    (s1 : SamplerState) :
    (applyDecision inp i r s1).2.metrics.framesProcessed +
      (applyDecision inp i r s1).2.metrics.framesSkipped =
    s1.metrics.framesProcessed + s1.metrics.framesSkipped + 1 := by
  unfold applyDecision recordTelemetry
  dsimp only
  repeat' split
  all_goals (simp
             omega)

lemma applyDecision_maxTel (inp : FrameInput) (i : Nat) (r : SamplingReason)
    (s1 : SamplerState) :
    (applyDecision inp i r s1).2.maxTelemetryEvents = s1.maxTelemetryEvents := by
  unfold applyDecision recordTelemetry
  dsimp only
  repeat' split
  all_goals rfl

lemma applyDecision_telemetry (inp : FrameInput) (i : Nat) (r : SamplingReason)
    (s1 : SamplerState) :
    ∃ e, (applyDecision inp i r s1).2.telemetryEvents =
      appendBounded s1.maxTelemetryEvents s1.telemetryEvents e := by
  unfold applyDecision recordTelemetry
  dsimp only
  repeat' split
  all_goals exact ⟨_, rfl⟩

lemma applyDecision_prevDet (inp : FrameInput) (i : Nat) (r : SamplingReason)
    (s1 : SamplerState) :
    (applyDecision inp i r s1).2.prevDetectionCount = s1.prevDetectionCount ∧
    (applyDecision inp i r s1).2.prevTrackIds = s1.prevTrackIds := by
  unfold applyDecision recordTelemetry
  dsimp only
  repeat' split
  all_goals exact ⟨rfl, rfl⟩

lemma applyDecision_detCount_none (inp : FrameInput) (i : Nat) (r : SamplingReason)
    (s1 : SamplerState) (hd : inp.detections = none) :
    (applyDecision inp i r s1).2.metrics.detectionCount = s1.metrics.detectionCount := by
  unfold applyDecision recordTelemetry
  rw [hd]
  dsimp only
  repeat' split
  all_goals rfl

lemma seekReturn_fst (s : SamplerState) (inp : FrameInput) :
    (seekReturn s inp).1 =
      { shouldProcess := true, reason := SamplingReason.userSeek, interval := none } := rfl

lemma seekReturn_state (s : SamplerState) (inp : FrameInput) :
    (seekReturn s inp).2.metrics.framesProcessed = s.metrics.framesProcessed ∧
    (seekReturn s inp).2.metrics.framesSkipped = s.metrics.framesSkipped ∧
    (seekReturn s inp).2.metrics.detectionCount = s.metrics.detectionCount ∧
    (seekReturn s inp).2.maxTelemetryEvents = s.maxTelemetryEvents ∧
    (seekReturn s inp).2.prevDetectionCount = s.prevDetectionCount ∧
    (seekReturn s inp).2.prevTrackIds = s.prevTrackIds := by
  exact ⟨rfl, rfl, rfl, rfl, rfl, rfl⟩

lemma seekReturn_telemetry (s : SamplerState) (inp : FrameInput) :
    ∃ e, (seekReturn s inp).2.telemetryEvents =
      appendBounded s.maxTelemetryEvents s.telemetryEvents e := ⟨_, rfl⟩

lemma enterFrame_state (s : SamplerState) (inp : FrameInput) :
    (enterFrame s inp).metrics.framesProcessed = s.metrics.framesProcessed ∧
    (enterFrame s inp).metrics.framesSkipped = s.metrics.framesSkipped ∧
    (enterFrame s inp).metrics.detectionCount = s.metrics.detectionCount ∧
    (enterFrame s inp).maxTelemetryEvents = s.maxTelemetryEvents ∧
    (enterFrame s inp).prevDetectionCount = s.prevDetectionCount ∧
    (enterFrame s inp).prevTrackIds = s.prevTrackIds ∧
    (enterFrame s inp).telemetryEvents = s.telemetryEvents ∧
    (enterFrame s inp).lastProcessedFrame = s.lastProcessedFrame := by
  exact ⟨rfl, rfl, rfl, rfl, rfl, rfl, rfl, rfl⟩

lemma spf_counts (cfg : AdaptiveSamplingConfig) (s : SamplerState) (inp : FrameInput)
    (d : SamplingDecision) (s1 : SamplerState)
    (h : shouldProcessFrame cfg s inp = some (d, s1)) :
    s1.metrics.framesProcessed + s1.metrics.framesSkipped =
      s.metrics.framesProcessed + s.metrics.framesSkipped +
        (if inp.seekEvent then 0 else 1) := by
  cases hseek : inp.seekEvent with
  | true =>
    rw [spf_seek cfg s inp hseek] at h
    injection h with h
    have h2 := congrArg Prod.snd h
    simp only [] at h2
    rw [← h2]
    have hs := seekReturn_state (enterFrame s inp) inp
    have he := enterFrame_state s inp
    simp [hs.1, hs.2.1, he.1, he.2.1]
  | false =>
    rw [spf_not_seek cfg s inp hseek] at h
    cases hb : selectBranch cfg (enterFrame s inp) inp with
    | none => rw [hb] at h; exact absurd h (by simp)
    | some t =>
      rw [hb] at h
      rw [Option.map_some'] at h
      injection h with h
      have h2 := congrArg Prod.snd h
      simp only [] at h2
      rw [← h2]
      have hac := applyDecision_counts inp t.1 t.2.1 t.2.2
      have hbp := selectBranch_preserves cfg (enterFrame s inp) inp t hb
      have he := enterFrame_state s inp
      rw [hac, hbp.2.1, hbp.2.2.1, he.1, he.2.1]
      simp [hseek]

lemma spf_maxTel (cfg : AdaptiveSamplingConfig) (s : SamplerState) (inp : FrameInput)
    (d : SamplingDecision) (s1 : SamplerState)
    (h : shouldProcessFrame cfg s inp = some (d, s1)) :
    s1.maxTelemetryEvents = s.maxTelemetryEvents := by
  cases hseek : inp.seekEvent with
  | true =>
    rw [spf_seek cfg s inp hseek] at h
    injection h with h
    have h2 := congrArg Prod.snd h
    simp only [] at h2
    rw [← h2]
    exact (seekReturn_state (enterFrame s inp) inp).2.2.2.1.trans
      (enterFrame_state s inp).2.2.2.1
  | false =>
    rw [spf_not_seek cfg s inp hseek] at h
    cases hb : selectBranch cfg (enterFrame s inp) inp with
    | none => rw [hb] at h; exact absurd h (by simp)
    | some t =>
      rw [hb] at h
      rw [Option.map_some'] at h
      injection h with h
      have h2 := congrArg Prod.snd h
      simp only [] at h2
      rw [← h2]
      exact (applyDecision_maxTel inp t.1 t.2.1 t.2.2).trans
        (((selectBranch_preserves cfg (enterFrame s inp) inp t hb).2.2.2.2.2).trans
          (enterFrame_state s inp).2.2.2.1)

lemma spf_tel_le (cfg : AdaptiveSamplingConfig) (s : SamplerState) (inp : FrameInput)
    (d : SamplingDecision) (s1 : SamplerState)
    (h : shouldProcessFrame cfg s inp = some (d, s1))
    (hb : s.telemetryEvents.length ≤ s.maxTelemetryEvents) :
    s1.telemetryEvents.length ≤ s1.maxTelemetryEvents := by
  rw [spf_maxTel cfg s inp d s1 h]
  cases hseek : inp.seekEvent with
  | true =>
    rw [spf_seek cfg s inp hseek] at h
    injection h with h
    have h2 := congrArg Prod.snd h
    simp only [] at h2
    rw [← h2]
    obtain ⟨e, he⟩ := seekReturn_telemetry (enterFrame s inp) inp
    rw [he, (enterFrame_state s inp).2.2.2.1]
    have := (enterFrame_state s inp).2.2.2.2.2.2.1
    rw [this]
    exact appendBounded_length_le _ _ _ hb
  | false =>
    rw [spf_not_seek cfg s inp hseek] at h
    cases hsel : selectBranch cfg (enterFrame s inp) inp with
    | none => rw [hsel] at h; exact absurd h (by simp)
    | some t =>
      rw [hsel] at h
      rw [Option.map_some'] at h
      injection h with h
      have h2 := congrArg Prod.snd h
      simp only [] at h2
      rw [← h2]
      obtain ⟨e, he⟩ := applyDecision_telemetry inp t.1 t.2.1 t.2.2
      rw [he]
      have hp := selectBranch_preserves cfg (enterFrame s inp) inp t hsel
      rw [hp.2.2.2.2.1, hp.2.2.2.2.2]
      rw [(enterFrame_state s inp).2.2.2.2.2.2.1, (enterFrame_state s inp).2.2.2.1]
      exact appendBounded_length_le _ _ _ hb

lemma runCallsM_cons (cfg : AdaptiveSamplingConfig) (s : SamplerState)
    (inp : FrameInput) (rest : List FrameInput) :
    runCallsM cfg s (inp :: rest) =
      (shouldProcessFrame cfg s inp).bind (fun ds => runCallsM cfg ds.2 rest) := by
  cases h : shouldProcessFrame cfg s inp <;> simp [runCallsM, h]

lemma runCallsM_counts (cfg : AdaptiveSamplingConfig) :
    ∀ (inputs : List FrameInput) (s s1 : SamplerState),
      runCallsM cfg s inputs = some s1 →
      s1.metrics.framesProcessed + s1.metrics.framesSkipped =
        s.metrics.framesProcessed + s.metrics.framesSkipped +
          (inputs.filter (fun i => !i.seekEvent)).length
  | [], s, s1, h => by
    unfold runCallsM at h
    injection h with h
    subst h
    simp
  | inp :: rest, s, s1, h => by
    rw [runCallsM_cons] at h
    cases hstep : shouldProcessFrame cfg s inp with
    | none => rw [hstep] at h; exact absurd h (by simp)
    | some ds =>
      rw [hstep] at h
      replace h : runCallsM cfg ds.2 rest = some s1 := h
      have ih := runCallsM_counts cfg rest ds.2 s1 h
      have hc := spf_counts cfg s inp ds.1 ds.2 hstep
      rw [ih, hc]
      cases hseek : inp.seekEvent <;> simp [hseek] <;> omega

lemma runCallsM_maxTel (cfg : AdaptiveSamplingConfig) :
    ∀ (inputs : List FrameInput) (s s1 : SamplerState),
      runCallsM cfg s inputs = some s1 →
      s1.maxTelemetryEvents = s.maxTelemetryEvents
  | [], s, s1, h => by
    unfold runCallsM at h
    injection h with h
    subst h
    rfl
  | inp :: rest, s, s1, h => by
    rw [runCallsM_cons] at h
    cases hstep : shouldProcessFrame cfg s inp with
    | none => rw [hstep] at h; exact absurd h (by simp)
    | some ds =>
      rw [hstep] at h
      replace h : runCallsM cfg ds.2 rest = some s1 := h
      exact (runCallsM_maxTel cfg rest ds.2 s1 h).trans
        (spf_maxTel cfg s inp ds.1 ds.2 hstep)

lemma runCallsM_tel_le (cfg : AdaptiveSamplingConfig) :
    ∀ (inputs : List FrameInput) (s s1 : SamplerState),
      runCallsM cfg s inputs = some s1 →
      s.telemetryEvents.length ≤ s.maxTelemetryEvents →
      s1.telemetryEvents.length ≤ s1.maxTelemetryEvents
  | [], s, s1, h, hb => by
    unfold runCallsM at h
    injection h with h
    subst h
    exact hb
  | inp :: rest, s, s1, h, hb => by
    rw [runCallsM_cons] at h
    cases hstep : shouldProcessFrame cfg s inp with
    | none => rw [hstep] at h; exact absurd h (by simp)
    | some ds =>
      rw [hstep] at h
      replace h : runCallsM cfg ds.2 rest = some s1 := h
      exact runCallsM_tel_le cfg rest ds.2 s1 h
        (spf_tel_le cfg s inp ds.1 ds.2 hstep hb)

lemma appendBounded_foldl (cap : Nat) (es : List TelemetryEvent) :
    es.foldl (appendBounded cap) [] = es.drop (es.length - cap) := by
  induction es using List.reverseRecOn with
  | nil => simp
  | append_singleton es e ih =>
    rw [List.foldl_append, ih]
    simp only [List.foldl_cons, List.foldl_nil]
    by_cases hc : cap ≤ es.length
    · have hlen : (es.drop (es.length - cap)).length = cap := by
        rw [List.length_drop]; omega
      simp only [appendBounded]
      have hcond : cap < ((es.drop (es.length - cap)) ++ [e]).length := by
        rw [List.length_append, hlen]; simp
      rw [if_pos hcond]
      by_cases hc0 : cap = 0
      · subst hc0
        have h1 : es.drop (es.length - 0) = ([] : List TelemetryEvent) := by
          simp [List.drop_length]
        rw [h1]
        have h2 : (es ++ [e]).length - 0 = (es ++ [e]).length := by omega
        rw [h2, List.drop_length]
        rfl
      · have h1 : 1 ≤ (es.drop (es.length - cap)).length := by omega
        have h2 : es.length + 1 - cap ≤ es.length := by omega
        have h3 : (es ++ [e]).length - cap = es.length + 1 - cap := by
          rw [List.length_append]; rfl
        have harith : es.length - cap + 1 = es.length + 1 - cap := by omega
        rw [List.drop_append_of_le_length h1, List.drop_drop, harith, h3,
          List.drop_append_of_le_length h2]
    · have h0 : es.length - cap = 0 := by omega
      rw [h0, List.drop_zero]
      simp only [appendBounded]
      have hcond : ¬ cap < (es ++ [e]).length := by
        rw [List.length_append]; simp; omega
      rw [if_neg hcond]
      have h1 : (es ++ [e]).length - cap = 0 := by
        rw [List.length_append]; simp; omega
      rw [h1, List.drop_zero]

/-- C1: with the default configuration, no override conditions firing and
identical still frames at indices 0,1,2,3,4, the engine SKIPS frame 0
(elapsed is 0 minus the sentinel -1, which is 1, below the interval 2) and
processes frames 1 and 3: the claimed pattern true, false, true on frames
0,1,2 does not hold; the code yields false, true, false there, processing
every interval-th frame starting at frame 1, not frame 0. -/
theorem first_frame_skipped_under_default_config :
    runDecisions defaultConfig (initState defaultConfig)
      [stillInput 0, stillInput 1, stillInput 2, stillInput 3, stillInput 4] =
      some
        [{ shouldProcess := false, reason := SamplingReason.defaultReason, interval := some 2 },
         { shouldProcess := true, reason := SamplingReason.defaultReason, interval := some 2 },
         { shouldProcess := false, reason := SamplingReason.defaultReason, interval := some 2 },
         { shouldProcess := true, reason := SamplingReason.defaultReason, interval := some 2 },
         { shouldProcess := false, reason := SamplingReason.defaultReason, interval := some 2 }] := by
  with_unfolding_all decide

/-- C2 counterexample: a single call with seekEvent true returns through the
early seek path and increments neither the processed nor the skipped counter,
so after one call processed plus skipped is 0, not the number of calls 1. -/
theorem seek_call_dropped_from_accounting :
    ((runCallsM defaultConfig (initState defaultConfig) [seekInput 0]).map
      (fun s => s.metrics.framesProcessed + s.metrics.framesSkipped)) = some 0 ∧
    [seekInput 0].length = 1 := by
  constructor
  · with_unfolding_all decide
  · rfl

/-- C2 (amended): for every session and every sequence of calls that
completes without an exception, processed plus skipped equals the number of
calls with seekEvent false; calls with seekEvent true return early and are
counted by neither counter. -/
theorem processed_plus_skipped_counts_nonseek_calls (cfg : AdaptiveSamplingConfig)
    (inputs : List FrameInput) (s1 : SamplerState)
    (h : runCallsM cfg (initState cfg) inputs = some s1) :
    s1.metrics.framesProcessed + s1.metrics.framesSkipped =
      (inputs.filter (fun i => !i.seekEvent)).length := by
  have hc := runCallsM_counts cfg inputs (initState cfg) s1 h
  simpa [initState, initMetrics] using hc

/-- Witness for the amended C2 theorem at a concrete two-call session with
one seek call and one plain call. -/
theorem processed_plus_skipped_counts_nonseek_calls_witness :
    ∃ s1, runCallsM defaultConfig (initState defaultConfig)
        [stillInput 0, seekInput 1] = some s1 ∧
      s1.metrics.framesProcessed + s1.metrics.framesSkipped = 1 := by
  have hs : (runCallsM defaultConfig (initState defaultConfig)
      [stillInput 0, seekInput 1]).isSome = true := by
    with_unfolding_all decide
  obtain ⟨s1, h1⟩ := Option.isSome_iff_exists.mp hs
  refine ⟨s1, h1, ?_⟩
  rw [processed_plus_skipped_counts_nonseek_calls defaultConfig _ s1 h1]
  decide


/-- C5: the telemetry buffer of any session that starts from a fresh instance
never exceeds its capacity, which is 1000 by construction; and the bounded
append operation, iterated from an empty buffer over any event sequence,
leaves exactly the newest capacity-many events in insertion order, the
earliest surplus events being dropped. -/
theorem telemetry_bounded_fifo :
    (∀ (cfg : AdaptiveSamplingConfig) (inputs : List FrameInput) (s1 : SamplerState),
        runCallsM cfg (initState cfg) inputs = some s1 →
        s1.telemetryEvents.length ≤ s1.maxTelemetryEvents ∧
          s1.maxTelemetryEvents = 1000) ∧
    (∀ (cap : Nat) (es : List TelemetryEvent),
        es.foldl (appendBounded cap) [] = es.drop (es.length - cap)) := by
  constructor
  · intro cfg inputs s1 h
    refine ⟨runCallsM_tel_le cfg inputs (initState cfg) s1 h (by simp [initState]), ?_⟩
    exact (runCallsM_maxTel cfg inputs (initState cfg) s1 h).trans rfl
  · exact appendBounded_foldl

/-- Witness for the C5 theorem: a concrete three-call session stays within
capacity, and folding three events through a capacity-two buffer keeps
exactly the last two. -/
theorem telemetry_bounded_fifo_witness :
    (∃ s1, runCallsM defaultConfig (initState defaultConfig)
        [stillInput 0, stillInput 1, seekInput 2] = some s1 ∧
      s1.telemetryEvents.length ≤ s1.maxTelemetryEvents ∧
      s1.maxTelemetryEvents = 1000) ∧
    ([sampleEvent 0, sampleEvent 1, sampleEvent 2].foldl (appendBounded 2) [] =
      [sampleEvent 1, sampleEvent 2]) := by
  constructor
  · have hs : (runCallsM defaultConfig (initState defaultConfig)
        [stillInput 0, stillInput 1, seekInput 2]).isSome = true := by
      with_unfolding_all decide
    obtain ⟨s1, h1⟩ := Option.isSome_iff_exists.mp hs
    exact ⟨s1, h1, telemetry_bounded_fifo.1 defaultConfig _ s1 h1⟩
  · rw [telemetry_bounded_fifo.2 2 [sampleEvent 0, sampleEvent 1, sampleEvent 2]]
    rfl

/-- C7: after any sequence of calls that completes without an exception,
reset restores the full mutable state to that of a freshly constructed
instance with the same configuration. -/
theorem reset_restores_fresh_state (cfg : AdaptiveSamplingConfig)
    (inputs : List FrameInput) (s1 : SamplerState)
    (h : runCallsM cfg (initState cfg) inputs = some s1) :
    resetState cfg s1 = initState cfg := by
  have hm : s1.maxTelemetryEvents = 1000 :=
    (runCallsM_maxTel cfg inputs (initState cfg) s1 h).trans rfl
  unfold resetState initState
  rw [hm]

/-- Witness for the C7 theorem on a concrete two-call session. -/
theorem reset_restores_fresh_state_witness :
    ∃ s1, runCallsM defaultConfig (initState defaultConfig)
        [stillInput 0, stillInput 1] = some s1 ∧
      resetState defaultConfig s1 = initState defaultConfig := by
  have hs : (runCallsM defaultConfig (initState defaultConfig)
      [stillInput 0, stillInput 1]).isSome = true := by
    with_unfolding_all decide
  obtain ⟨s1, h1⟩ := Option.isSome_iff_exists.mp hs
  exact ⟨s1, h1, reset_restores_fresh_state defaultConfig _ s1 h1⟩

/-- C3: a call with seekEvent true always returns shouldProcess true with
reason UserSeek, whatever the engine state; and on every call with seekEvent
false that completes, the decision is exactly the elapsed-interval gate
applied to the interval carried by the decision — so the seek-event path is
the only condition that bypasses the gate. -/
theorem seek_event_always_processes_and_is_only_gate_bypass :
    (∀ (cfg : AdaptiveSamplingConfig) (s : SamplerState) (inp : FrameInput),
        inp.seekEvent = true →
        (shouldProcessFrame cfg s inp).map (fun r => (r.1.shouldProcess, r.1.reason)) =
          some (true, SamplingReason.userSeek)) ∧
    (∀ (cfg : AdaptiveSamplingConfig) (s : SamplerState) (inp : FrameInput)
        (d : SamplingDecision) (s1 : SamplerState),
        inp.seekEvent = false →
        shouldProcessFrame cfg s inp = some (d, s1) →
        ∃ i, d.interval = some i ∧
          (d.shouldProcess = true ↔
            (i : Int) ≤ (inp.frameIdx : Int) - s.lastProcessedFrame)) := by
  constructor
  · intro cfg s inp hseek
    rw [spf_seek cfg s inp hseek]
    rfl
  · intro cfg s inp d s1 hseek h
    rw [spf_not_seek cfg s inp hseek] at h
    cases hb : selectBranch cfg (enterFrame s inp) inp with
    | none => rw [hb] at h; exact absurd h (by simp)
    | some t =>
      rw [hb, Option.map_some'] at h
      injection h with h
      have h1 := congrArg Prod.fst h
      simp only [] at h1
      rw [applyDecision_fst] at h1
      refine ⟨t.1, ?_, ?_⟩
      · rw [← h1]
      · rw [← h1]
        simp only []
        rw [(selectBranch_preserves cfg (enterFrame s inp) inp t hb).1,
          (enterFrame_state s inp).2.2.2.2.2.2.2]
        exact decide_eq_true_iff

/-- Witness for the C3 theorem: the seek part at a concrete state and seek
input, and the gate part at a concrete plain call. -/
theorem seek_event_gate_witness :
    ((shouldProcessFrame defaultConfig (initState defaultConfig) (seekInput 5)).map
        (fun r => (r.1.shouldProcess, r.1.reason)) =
      some (true, SamplingReason.userSeek)) ∧
    (∃ d s1, shouldProcessFrame defaultConfig (initState defaultConfig)
        (stillInput 0) = some (d, s1) ∧
      ∃ i, d.interval = some i ∧
        (d.shouldProcess = true ↔
          (i : Int) ≤ ((stillInput 0).frameIdx : Int) -
            (initState defaultConfig).lastProcessedFrame)) := by
  constructor
  · exact seek_event_always_processes_and_is_only_gate_bypass.1
      defaultConfig (initState defaultConfig) (seekInput 5) rfl
  · have hs : (shouldProcessFrame defaultConfig (initState defaultConfig)
        (stillInput 0)).isSome = true := by
      with_unfolding_all decide
    obtain ⟨r, hr⟩ := Option.isSome_iff_exists.mp hs
    exact ⟨r.1, r.2, hr,
      seek_event_always_processes_and_is_only_gate_bypass.2
        defaultConfig (initState defaultConfig) (stillInput 0) r.1 r.2 rfl hr⟩

/-- C9: no call that completes ever carries the Initialization member of the
reason tag set: the seek path yields UserSeek and every other path yields one
of the reasons produced by the branch selection, none of which is
Initialization. -/
theorem no_decision_carries_initialization_reason (cfg : AdaptiveSamplingConfig)
    (s : SamplerState) (inp : FrameInput) (d : SamplingDecision) (s1 : SamplerState)
    (h : shouldProcessFrame cfg s inp = some (d, s1)) :
    d.reason ≠ SamplingReason.initialization := by
  cases hseek : inp.seekEvent with
  | true =>
    rw [spf_seek cfg s inp hseek] at h
    injection h with h
    have h1 := congrArg Prod.fst h
    simp only [] at h1
    rw [seekReturn_fst] at h1
    rw [← h1]
    simp
  | false =>
    rw [spf_not_seek cfg s inp hseek] at h
    cases hb : selectBranch cfg (enterFrame s inp) inp with
    | none => rw [hb] at h; exact absurd h (by simp)
    | some t =>
      rw [hb, Option.map_some'] at h
      injection h with h
      have h1 := congrArg Prod.fst h
      simp only [] at h1
      rw [applyDecision_fst] at h1
      rw [← h1]
      simp only []
      exact selectBranch_reason cfg (enterFrame s inp) inp t hb

/-- Witness for the C9 theorem at a concrete first call. -/
theorem no_decision_carries_initialization_reason_witness :
    ∃ d s1, shouldProcessFrame defaultConfig (initState defaultConfig)
        (stillInput 0) = some (d, s1) ∧
      d.reason ≠ SamplingReason.initialization := by
  have hs : (shouldProcessFrame defaultConfig (initState defaultConfig)
      (stillInput 0)).isSome = true := by
    with_unfolding_all decide
  obtain ⟨r, hr⟩ := Option.isSome_iff_exists.mp hs
  exact ⟨r.1, r.2, hr,
    no_decision_carries_initialization_reason defaultConfig (initState defaultConfig)
      (stillInput 0) r.1 r.2 hr⟩

lemma calcAI_det_none (cfg : AdaptiveSamplingConfig) (s : SamplerState) (f : Frame)
    (t : Nat × SamplingReason × SamplerState)
    (h : calculateAdaptiveInterval cfg s f none = some t) :
    t.2.2.prevDetectionCount = s.prevDetectionCount ∧
    t.2.2.prevTrackIds = s.prevTrackIds ∧
    t.2.2.metrics.detectionCount = s.metrics.detectionCount := by
  unfold calculateAdaptiveInterval at h
  cases hm : motionStage cfg f cfg.defaultInterval SamplingReason.defaultReason s with
  | none => rw [hm] at h; exact absurd h (by simp)
  | some t1 =>
    rw [hm] at h
    simp only [crowdStage, idStage] at h
    injection h with h
    subst h
    have h1 := motionStage_preserves _ _ _ _ _ _ hm
    rw [stabilityStage_state]
    exact ⟨h1.2.2.2.2.2.2.1, h1.2.2.2.2.2.2.2, h1.2.2.2.1⟩

/-- C10: a call with no detection list leaves the stored previous detection
count, the stored previous identity set, and the running detections-seen
counter unchanged: an omitted list is never treated as an empty one. -/
theorem none_detections_leave_detection_state_unchanged
    (cfg : AdaptiveSamplingConfig) (s : SamplerState) (inp : FrameInput)
    (d : SamplingDecision) (s1 : SamplerState)
    (hdet : inp.detections = none)
    (h : shouldProcessFrame cfg s inp = some (d, s1)) :
    s1.prevDetectionCount = s.prevDetectionCount ∧
    s1.prevTrackIds = s.prevTrackIds ∧
    s1.metrics.detectionCount = s.metrics.detectionCount := by
  cases hseek : inp.seekEvent with
  | true =>
    rw [spf_seek cfg s inp hseek] at h
    injection h with h
    have h2 := congrArg Prod.snd h
    simp only [] at h2
    rw [← h2]
    have hs := seekReturn_state (enterFrame s inp) inp
    have he := enterFrame_state s inp
    exact ⟨hs.2.2.2.2.1.trans he.2.2.2.2.1, hs.2.2.2.2.2.trans he.2.2.2.2.2.1,
      hs.2.2.1.trans he.2.2.1⟩
  | false =>
    rw [spf_not_seek cfg s inp hseek] at h
    cases hb : selectBranch cfg (enterFrame s inp) inp with
    | none => rw [hb] at h; exact absurd h (by simp)
    | some t =>
      rw [hb, Option.map_some'] at h
      injection h with h
      have h2 := congrArg Prod.snd h
      simp only [] at h2
      rw [← h2]
      have ha := applyDecision_prevDet inp t.1 t.2.1 t.2.2
      have had := applyDecision_detCount_none inp t.1 t.2.1 t.2.2 hdet
      have he := enterFrame_state s inp
      have hbr : t.2.2.prevDetectionCount = (enterFrame s inp).prevDetectionCount ∧
          t.2.2.prevTrackIds = (enterFrame s inp).prevTrackIds ∧
          t.2.2.metrics.detectionCount = (enterFrame s inp).metrics.detectionCount := by
        unfold selectBranch at hb
        split at hb
        · injection hb with hb; subst hb; exact ⟨rfl, rfl, rfl⟩
        · split at hb
          · injection hb with hb; subst hb; exact ⟨rfl, rfl, rfl⟩
          · split at hb
            · injection hb with hb; subst hb; exact ⟨rfl, rfl, rfl⟩
            · rw [hdet] at hb
              exact calcAI_det_none cfg (enterFrame s inp) inp.frame t hb
      exact ⟨(ha.1.trans hbr.1).trans he.2.2.2.2.1,
        (ha.2.trans hbr.2.1).trans he.2.2.2.2.2.1,
        (had.trans hbr.2.2).trans he.2.2.1⟩

/-- Witness for the C10 theorem at a concrete call without detections. -/
theorem none_detections_leave_detection_state_unchanged_witness :
    ∃ d s1, shouldProcessFrame defaultConfig (initState defaultConfig)
        (stillInput 0) = some (d, s1) ∧
      s1.prevDetectionCount = (initState defaultConfig).prevDetectionCount ∧
      s1.prevTrackIds = (initState defaultConfig).prevTrackIds ∧
      s1.metrics.detectionCount = (initState defaultConfig).metrics.detectionCount := by
  have hs : (shouldProcessFrame defaultConfig (initState defaultConfig)
      (stillInput 0)).isSome = true := by
    with_unfolding_all decide
  obtain ⟨r, hr⟩ := Option.isSome_iff_exists.mp hs
  exact ⟨r.1, r.2, hr,
    none_detections_leave_detection_state_unchanged defaultConfig
      (initState defaultConfig) (stillInput 0) r.1 r.2 rfl hr⟩

lemma applyDecision_processed (inp : FrameInput) (i : Nat) (r : SamplingReason)
    (s1 : SamplerState) (h : (i : Int) ≤ (inp.frameIdx : Int) - s1.lastProcessedFrame) :
    (applyDecision inp i r s1).1.shouldProcess = true ∧
    (applyDecision inp i r s1).2.lastProcessedFrame = (inp.frameIdx : Int) := by
  have hd : decide ((i : Int) ≤ (inp.frameIdx : Int) - s1.lastProcessedFrame) = true :=
    decide_eq_true h
  unfold applyDecision recordTelemetry
  dsimp only
  rw [hd]
  simp

lemma runDecisions_cons (cfg : AdaptiveSamplingConfig) (s : SamplerState)
    (inp : FrameInput) (rest : List FrameInput) :
    runDecisions cfg s (inp :: rest) =
      (shouldProcessFrame cfg s inp).bind
        (fun p => (runDecisions cfg p.2 rest).map (fun l => p.1 :: l)) := by
  cases h : shouldProcessFrame cfg s inp
  all_goals simp [runDecisions, h]

lemma c4_step (cfg : AdaptiveSamplingConfig) (s : SamplerState) (inp : FrameInput)
    (hlock : inp.lockOnActive = true) (hseek : inp.seekEvent = false)
    (hgate : s.lastProcessedFrame < (inp.frameIdx : Int)) :
    ∃ d s1, shouldProcessFrame cfg s inp = some (d, s1) ∧
      d.shouldProcess = true ∧ d.interval = some 1 ∧
      s1.lastProcessedFrame = (inp.frameIdx : Int) := by
  rw [spf_not_seek cfg s inp hseek]
  have hlast : (enterFrame s inp).lastProcessedFrame = s.lastProcessedFrame := rfl
  have hgate1 : ((1 : Nat) : Int) ≤ (inp.frameIdx : Int) -
      (enterFrame s inp).lastProcessedFrame := by
    rw [hlast]; omega
  unfold selectBranch
  rw [hlock]
  split
  · have hp := applyDecision_processed inp 1 SamplingReason.userSeek (enterFrame s inp) hgate1
    exact ⟨_, _, rfl, hp.1, rfl, hp.2⟩
  · simp only [if_true]
    have hp := applyDecision_processed inp 1 SamplingReason.lockOnActive
      { enterFrame s inp with
        lockOnBoostRemaining := cfg.lockOnBoostFrames
        metrics := { (enterFrame s inp).metrics with
          lockEvents := (enterFrame s inp).metrics.lockEvents + 1 } }
      hgate1
    exact ⟨_, _, rfl, hp.1, rfl, hp.2⟩

lemma c4_aux (cfg : AdaptiveSamplingConfig) :
    ∀ (inputs : List FrameInput) (s : SamplerState) (ds : List SamplingDecision),
      (∀ i ∈ inputs, i.lockOnActive = true ∧ i.seekEvent = false) →
      (inputs.map FrameInput.frameIdx).Chain' (fun a b => a < b) →
      (∀ i0, inputs.head? = some i0 → s.lastProcessedFrame < (i0.frameIdx : Int)) →
      runDecisions cfg s inputs = some ds →
      ∀ d ∈ ds, d.shouldProcess = true ∧ d.interval = some 1
  | [], _, ds, _, _, _, h => by
    unfold runDecisions at h
    injection h with h
    subst h
    simp
  | inp :: rest, s, ds, hl, hm, hh, h => by
    obtain ⟨d1, s1, hstep, hps, hint, hlast⟩ :=
      c4_step cfg s inp (hl inp (by simp)).1 (hl inp (by simp)).2 (hh inp rfl)
    rw [runDecisions_cons, hstep] at h
    replace h : (runDecisions cfg s1 rest).map (fun l => d1 :: l) = some ds := h
    cases hrest : runDecisions cfg s1 rest with
    | none => rw [hrest] at h; exact absurd h (by simp)
    | some ls =>
      rw [hrest, Option.map_some'] at h
      injection h with h
      subst h
      intro d hd
      rcases List.mem_cons.mp hd with hd | hd
      · subst hd; exact ⟨hps, hint⟩
      · refine c4_aux cfg rest s1 ls (fun i hi => hl i (List.mem_cons_of_mem _ hi))
          ?_ ?_ hrest d hd
        · have := hm
          rw [List.map_cons] at this
          exact this.tail
        · intro i0 h0
          cases rest with
          | nil => simp at h0
          | cons b bs =>
            simp only [List.head?_cons, Option.some_inj] at h0
            rw [List.map_cons, List.map_cons] at hm
            have hrel : inp.frameIdx < b.frameIdx := (List.chain'_cons.mp hm).1
            rw [hlast, ← h0]
            exact_mod_cast hrel

/-- C4: starting from a fresh instance, for every call sequence with strictly
increasing frame indices, lockOnActive true and seekEvent false on every
call, every call returns shouldProcess true with the interval forced to 1. -/
theorem lock_on_forces_every_frame_processed (cfg : AdaptiveSamplingConfig)
    (inputs : List FrameInput) (ds : List SamplingDecision)
    (hl : ∀ i ∈ inputs, i.lockOnActive = true ∧ i.seekEvent = false)
    (hm : (inputs.map FrameInput.frameIdx).Chain' (fun a b => a < b))
    (h : runDecisions cfg (initState cfg) inputs = some ds) :
    ∀ d ∈ ds, d.shouldProcess = true ∧ d.interval = some 1 := by
  refine c4_aux cfg inputs (initState cfg) ds hl hm ?_ h
  intro i0 _
  have : (initState cfg).lastProcessedFrame = -1 := rfl
  rw [this]
  omega


/-- Witness for the C4 theorem on a concrete three-call lock-on session. -/
theorem lock_on_forces_every_frame_processed_witness :
    ∃ ds, runDecisions defaultConfig (initState defaultConfig)
        [lockInput 0, lockInput 1, lockInput 2] = some ds ∧
      ∀ d ∈ ds, d.shouldProcess = true ∧ d.interval = some 1 := by
  have hs : (runDecisions defaultConfig (initState defaultConfig)
      [lockInput 0, lockInput 1, lockInput 2]).isSome = true := by
    with_unfolding_all decide
  obtain ⟨ds, hds⟩ := Option.isSome_iff_exists.mp hs
  refine ⟨ds, hds, ?_⟩
  refine lock_on_forces_every_frame_processed defaultConfig
    [lockInput 0, lockInput 1, lockInput 2] ds ?_ ?_ hds
  · intro i hi
    fin_cases hi <;> exact ⟨rfl, rfl⟩
  · simp [lockInput, List.chain'_cons]

lemma idStage_ids_eq (cfg : AdaptiveSamplingConfig) (l : List Det) (i : Nat)
    (r : SamplingReason) (s : SamplerState) (h : detIds l = s.prevTrackIds) :
    (idStage cfg (some l) i r s).1 = i ∧ (idStage cfg (some l) i r s).2.1 = r := by
  unfold idStage
  dsimp only
  split
  · rw [if_neg (by simp [h])]
    exact ⟨rfl, rfl⟩
  · exact ⟨rfl, rfl⟩

lemma stabilityStage_keeps_reason (cfg : AdaptiveSamplingConfig) (i : Nat)
    (r : SamplingReason) (s : SamplerState) (h : r ≠ SamplingReason.defaultReason) :
    (stabilityStage cfg i r s).2.1 = r := by
  unfold stabilityStage
  repeat' split
  all_goals (first | rfl | (rename_i hr; exact absurd hr h))

/-- C6: in the crowd monitoring block, a stored previous count of 2 and a
supplied list of 5 detections is a relative change of 3/2, which exceeds any
threshold below it, in particular the default 30 percent one: the reason
becomes CrowdChange regardless of the interval and reason produced by the
motion stage (so the label is replaced even when the min does not change the
numeric interval), the interval is capped at min of itself and minInterval
plus one, the stability counter resets, and the stored count becomes 5; the
whole check is skipped when the stored previous count is 0, and the stored
count is still updated afterward; and through the full adaptive calculation
with no identity churn the resulting reason is CrowdChange. -/
theorem crowd_change_caps_interval_and_replaces_reason :
    (∀ (cfg : AdaptiveSamplingConfig) (l : List Det) (i : Nat) (r : SamplingReason)
        (s : SamplerState),
        cfg.enableCrowdMonitoring = true → s.prevDetectionCount = 2 → l.length = 5 →
        cfg.detectionChangeThreshold < 3 / 2 →
        crowdStage cfg (some l) i r s =
          (min i (cfg.minInterval + 1), SamplingReason.crowdChange,
            { s with stabilityCounter := 0, prevDetectionCount := 5 })) ∧
    (∀ (cfg : AdaptiveSamplingConfig) (l : List Det) (i : Nat) (r : SamplingReason)
        (s : SamplerState),
        cfg.enableCrowdMonitoring = true → s.prevDetectionCount = 0 →
        crowdStage cfg (some l) i r s = (i, r, { s with prevDetectionCount := l.length })) ∧
    (∀ (cfg : AdaptiveSamplingConfig) (s : SamplerState) (f : Frame) (l : List Det)
        (t : Nat × SamplingReason × SamplerState),
        cfg.enableCrowdMonitoring = true → s.prevDetectionCount = 2 → l.length = 5 →
        cfg.detectionChangeThreshold < 3 / 2 → detIds l = s.prevTrackIds →
        calculateAdaptiveInterval cfg s f (some l) = some t →
        t.2.1 = SamplingReason.crowdChange) := by
  have part1 : ∀ (cfg : AdaptiveSamplingConfig) (l : List Det) (i : Nat)
      (r : SamplingReason) (s : SamplerState),
      cfg.enableCrowdMonitoring = true → s.prevDetectionCount = 2 → l.length = 5 →
      cfg.detectionChangeThreshold < 3 / 2 →
      crowdStage cfg (some l) i r s =
        (min i (cfg.minInterval + 1), SamplingReason.crowdChange,
          { s with stabilityCounter := 0, prevDetectionCount := 5 }) := by
    intro cfg l i r s hcm hprev hlen hth
    unfold crowdStage
    dsimp only
    rw [hcm, if_pos rfl, hprev, hlen]
    split_ifs with h1 h2
    · rfl
    · norm_num at h2
      exact absurd hth (not_lt.mpr h2)
    · exact absurd (by norm_num : (0 : Nat) < 2) h1
  refine ⟨part1, ?_, ?_⟩
  · intro cfg l i r s hcm hprev
    unfold crowdStage
    dsimp only
    rw [hcm, if_pos rfl, hprev]
    split_ifs with h1
    all_goals (first | rfl | exact absurd h1 (by norm_num))
  · intro cfg s f l t hcm hprev hlen hth hids hcalc
    unfold calculateAdaptiveInterval at hcalc
    cases hm : motionStage cfg f cfg.defaultInterval SamplingReason.defaultReason s with
    | none => rw [hm] at hcalc; exact absurd hcalc (by simp)
    | some t1 =>
      rw [hm] at hcalc
      simp only [] at hcalc
      injection hcalc with hcalc
      subst hcalc
      have hmp := motionStage_preserves _ _ _ _ _ _ hm
      simp only []
      rw [part1 cfg l t1.1 t1.2.1 t1.2.2 hcm
        (hmp.2.2.2.2.2.2.1.trans hprev) hlen hth]
      have hids2 : detIds l = t1.2.2.prevTrackIds := by
        rw [hids, ← hmp.2.2.2.2.2.2.2]
      have hid := idStage_ids_eq cfg l (min t1.1 (cfg.minInterval + 1))
        SamplingReason.crowdChange
        { t1.2.2 with stabilityCounter := 0, prevDetectionCount := 5 } hids2
      rw [stabilityStage_keeps_reason _ _ _ _ (by rw [hid.2]; simp), hid.2]




/-- Witness for the C6 theorem at the default configuration: previous count 2,
five current detections. -/
theorem crowd_change_caps_interval_and_replaces_reason_witness :
    (crowdStage defaultConfig (some dets5) 2 SamplingReason.motionSpike statePrev2 =
      (min 2 (defaultConfig.minInterval + 1), SamplingReason.crowdChange,
        { statePrev2 with stabilityCounter := 0, prevDetectionCount := 5 })) ∧
    (crowdStage defaultConfig (some dets5) 2 SamplingReason.defaultReason
        (initState defaultConfig) =
      (2, SamplingReason.defaultReason,
        { initState defaultConfig with prevDetectionCount := dets5.length })) ∧
    (∃ t, calculateAdaptiveInterval defaultConfig statePrev2 stillFrame
        (some dets5) = some t ∧ t.2.1 = SamplingReason.crowdChange) := by
  refine ⟨?_, ?_, ?_⟩
  · exact crowd_change_caps_interval_and_replaces_reason.1 defaultConfig dets5 2
      SamplingReason.motionSpike statePrev2 rfl rfl (by simp [dets5])
      (by norm_num [defaultConfig])
  · exact crowd_change_caps_interval_and_replaces_reason.2.1 defaultConfig dets5 2
      SamplingReason.defaultReason (initState defaultConfig) rfl rfl
  · have hs : (calculateAdaptiveInterval defaultConfig statePrev2 stillFrame
        (some dets5)).isSome = true := by
      with_unfolding_all decide
    obtain ⟨t, ht⟩ := Option.isSome_iff_exists.mp hs
    refine ⟨t, ht, ?_⟩
    exact crowd_change_caps_interval_and_replaces_reason.2.2 defaultConfig statePrev2
      stillFrame dets5 t rfl rfl (by simp [dets5]) (by norm_num [defaultConfig]) rfl ht

lemma countChanged_le (pg g : GrayFrame) : countChanged pg g ≤ g.rows * g.cols := by
  unfold countChanged
  calc ((Finset.range g.rows ×ˢ Finset.range g.cols).filter
        (fun p => 25 < Int.natAbs ((pg.pix p.1 p.2 : Int) - (g.pix p.1 p.2 : Int)))).card
      ≤ (Finset.range g.rows ×ˢ Finset.range g.cols).card := Finset.card_filter_le _ _
    _ = g.rows * g.cols := by rw [Finset.card_product, Finset.card_range, Finset.card_range]

lemma calculateMotionScore_pos_frame (prev : Option GrayFrame) (f : Frame)
    (hr : 0 < f.rows) (hc : 0 < f.cols)
    (hcompat : ∀ pg, prev = some pg → (pg.rows = f.rows ∧ pg.cols = f.cols)) :
    ∃ q g, calculateMotionScore prev f = some (q, g) ∧
      0 ≤ q ∧ q ≤ 1 ∧ (prev = none → q = 0) := by
  unfold calculateMotionScore cvtGray
  rw [if_neg (by omega)]
  simp only []
  cases prev with
  | none =>
    exact ⟨0, _, rfl, le_refl 0, by norm_num, fun _ => rfl⟩
  | some pg =>
    have hdm := hcompat pg rfl
    dsimp only [gaussianBlur]
    rw [if_pos ⟨hdm.1, hdm.2⟩]
    refine ⟨_, _, rfl, ?_, ?_, ?_⟩
    · exact div_nonneg (Nat.cast_nonneg _) (Nat.cast_nonneg _)
    · rw [div_le_one (by exact_mod_cast Nat.mul_pos hr hc)]
      exact_mod_cast countChanged_le pg _
    · intro h
      exact absurd h (by simp)

lemma motionStage_isSome (cfg : AdaptiveSamplingConfig) (f : Frame) (i : Nat)
    (r : SamplingReason) (s : SamplerState)
    (h : (calculateMotionScore s.prevFrameGray f).isSome = true) :
    (motionStage cfg f i r s).isSome = true := by
  unfold motionStage
  split
  · cases hm : calculateMotionScore s.prevFrameGray f with
    | none => rw [hm] at h; exact absurd h (by simp)
    | some sg =>
      dsimp only
      repeat' split
      all_goals rfl
  · rfl

lemma calcAI_isSome (cfg : AdaptiveSamplingConfig) (s : SamplerState) (f : Frame)
    (dets : Option (List Det))
    (h : (calculateMotionScore s.prevFrameGray f).isSome = true) :
    (calculateAdaptiveInterval cfg s f dets).isSome = true := by
  unfold calculateAdaptiveInterval
  cases hm : motionStage cfg f cfg.defaultInterval SamplingReason.defaultReason s with
  | none =>
    have := motionStage_isSome cfg f cfg.defaultInterval SamplingReason.defaultReason s h
    rw [hm] at this
    exact absurd this (by simp)
  | some t1 => rfl

/-- C8 (amended): for every frame within the interface contract (positive
width and height, and consistent in shape with the stored previous frame),
the motion scorer is total with a score in the unit range, 0 on the first
call, and the whole decision path completes; a zero-area frame however makes
the underlying grayscale conversion fail, the failure propagating out of the
call, rather than yielding a motion score of 0. -/
theorem decision_path_total_and_score_in_unit_range :
    (∀ (prev : Option GrayFrame) (f : Frame),
        0 < f.rows → 0 < f.cols →
        (∀ pg, prev = some pg → (pg.rows = f.rows ∧ pg.cols = f.cols)) →
        ∃ q g, calculateMotionScore prev f = some (q, g) ∧
          0 ≤ q ∧ q ≤ 1 ∧ (prev = none → q = 0)) ∧
    (∀ (cfg : AdaptiveSamplingConfig) (s : SamplerState) (inp : FrameInput),
        0 < inp.frame.rows → 0 < inp.frame.cols →
        (∀ pg, s.prevFrameGray = some pg →
          (pg.rows = inp.frame.rows ∧ pg.cols = inp.frame.cols)) →
        (shouldProcessFrame cfg s inp).isSome = true) := by
  refine ⟨calculateMotionScore_pos_frame, ?_⟩
  intro cfg s inp hr hc hcompat
  cases hseek : inp.seekEvent with
  | true => rw [spf_seek cfg s inp hseek]; rfl
  | false =>
    rw [spf_not_seek cfg s inp hseek]
    have hms : (calculateMotionScore (enterFrame s inp).prevFrameGray
        inp.frame).isSome = true := by
      obtain ⟨q, g, heq, _⟩ := calculateMotionScore_pos_frame s.prevFrameGray
        inp.frame hr hc hcompat
      have hpg : (enterFrame s inp).prevFrameGray = s.prevFrameGray := rfl
      rw [hpg, heq]
      rfl
    have hsel : (selectBranch cfg (enterFrame s inp) inp).isSome = true := by
      unfold selectBranch
      repeat' split
      · rfl
      · rfl
      · rfl
      · exact calcAI_isSome cfg (enterFrame s inp) inp.frame inp.detections hms
    rcases Option.isSome_iff_exists.mp hsel with ⟨t, ht⟩
    rw [ht]
    rfl

/-- C8 counterexample: on a zero-area frame the motion scorer and, through
it, the whole decision call fail (the grayscale conversion rejects an empty
input); the call does not return a motion score of 0. -/
theorem zero_area_frame_fails_rather_than_scoring_zero :
    (calculateMotionScore none emptyFrame).isSome = false ∧
    (shouldProcessFrame defaultConfig (initState defaultConfig)
      emptyFrameInput).isSome = false := by
  constructor
  · rfl
  · with_unfolding_all decide

/-- Witness for the C8 theorem: the motion scorer part at a first call on a
concrete one by one frame, and the totality part at a concrete call. -/
theorem decision_path_total_witness :
    (∃ q g, calculateMotionScore none stillFrame = some (q, g) ∧
      0 ≤ q ∧ q ≤ 1 ∧ (none = (none : Option GrayFrame) → q = 0)) ∧
    (shouldProcessFrame defaultConfig (initState defaultConfig)
      (stillInput 0)).isSome = true := by
  constructor
  · exact decision_path_total_and_score_in_unit_range.1 none stillFrame
      (by norm_num [stillFrame]) (by norm_num [stillFrame])
      (fun pg h => by cases h)
  · exact decision_path_total_and_score_in_unit_range.2 defaultConfig
      (initState defaultConfig) (stillInput 0)
      (by norm_num [stillInput, stillFrame]) (by norm_num [stillInput, stillFrame])
      (fun pg h => by cases h)
